import Mathlib

/-!
Shallow embedding of the credential-broker core of the `metaplay-cli`
repository: the typed HTTP request executors (`envapi.httpRequest` and
`metahttp.Request`), the environment credential broker
(`GetDetails`, `GetAWSCredentials`, `GetKubeConfigWithExecCredential`),
and the registry credential derivation (`GetDockerCredentials`).

Network calls are modelled by passing the outcome of each call
(`Transport`) as an input; the external JSON library (`json.Unmarshal`)
is modelled by a decoder argument `String → Except String T` whose error
value stands for the parse error; base64 is implemented concretely,
following Go's `encoding/base64` standard alphabet.
-/

set_option maxRecDepth 4000

namespace MetaplayCli

/-- Outcome of one network attempt by the resty client: either a transport
failure (`err != nil` from the HTTP round trip) or a response with a
status code and a raw body. -/
inductive Transport where
  | failure (cause : String)
  | response (statusCode : Nat) (body : String)
deriving DecidableEq

/-- The error values produced by the request executors.
`requestFailed` is `fmt.Errorf("%s request to %s failed: %w", ...)`;
`statusFailed` is `fmt.Errorf("%s request to %s failed with status code %d", ...)`;
`rawJsonError` embeds the error value returned by `json.Unmarshal`, which
both executors return as-is (unwrapped): the constructor is only the
embedding of that foreign error value, it adds no information. -/
inductive ReqError where
  | requestFailed (method target cause : String)
  | statusFailed (method target : String) (statusCode : Nat)
  | rawJsonError (cause : String)
deriving DecidableEq

/-- Result of a Go function returning `(value, error)` where all `return`
sites give either a value with a nil error, or no value with a non-nil
error; `panicked` marks a run that hits `log.Panic` or a nil-pointer
dereference. -/
inductive Outcome (E T : Type) where
  | ok (val : T)
  | err (e : E)
  | panicked
deriving DecidableEq

/-- The run-time discrimination on the generic response type in the Go
executors (`if _, isReturnTypeString := any(*result).(string)`): a
response is either taken verbatim as plaintext (when the result type is
`string`; `ofString` is the identity coercion) or parsed as JSON by
`unmarshal`, whose `Except.error` is the `json.Unmarshal` error. -/
inductive DecodeMode (T : Type) where
  | plaintext (ofString : String → T)
  | json (unmarshal : String → Except String T)

namespace envapi

/-- Response handling shared by the `GET`/`POST` arms of
`envapi.httpRequest` (source lines 127–155): error check, then status
check against [200,300), then the plaintext/JSON discrimination.  The
`log.Error` diagnostic on the unmarshal branch does not affect the
returned values and is omitted here (it is modelled where a claim needs
it, in `metahttp.Request`). -/
def handleResponse {T : Type} (mode : DecodeMode T) (method path : String)
    (transport : Transport) : Outcome ReqError T :=
  match transport with
  | .failure cause => .err (.requestFailed method path cause)
  | .response statusCode body =>
    if statusCode < 200 ∨ 300 ≤ statusCode then
      .err (.statusFailed method path statusCode)
    else
      match mode with
      | .plaintext ofString => .ok (ofString body)
      | .json unmarshal =>
        match unmarshal body with
        | .ok val => .ok val
        | .error cause => .err (.rawJsonError cause)

/-- `envapi.httpRequest`: dispatch on the HTTP method string.  Only
`http.MethodGet` ("GET") and `http.MethodPost` ("POST") are implemented;
every other method hits `log.Panic().Msgf("HTTP request method not
implemented")`. -/
def httpRequest {T : Type} (mode : DecodeMode T) (method path : String)
    (transport : Transport) : Outcome ReqError T :=
  match method with
  | "GET" => handleResponse mode "GET" path transport
  | "POST" => handleResponse mode "POST" path transport
  | _ => .panicked

/-- `envapi.httpGetRequest`. -/
def httpGetRequest {T : Type} (mode : DecodeMode T) (path : String)
    (transport : Transport) : Outcome ReqError T :=
  httpRequest mode "GET" path transport

/-- `envapi.httpPostRequest`. -/
def httpPostRequest {T : Type} (mode : DecodeMode T) (path : String)
    (transport : Transport) : Outcome ReqError T :=
  httpRequest mode "POST" path transport

/-- `envapi.TargetEnvironment`: base URL of the StackAPI and the
environment human id.  The token set and the bound resty client are
modelled by the `Transport` inputs of each operation. -/
structure TargetEnvironment where
  StackApiBaseURL : String
  HumanId : String
deriving DecidableEq

/-- `envapi.AWSCredentials`. -/
structure AWSCredentials where
  AccessKeyId : String
  SecretAccessKey : String
  SessionToken : String
  Expiration : String
deriving DecidableEq

/-- `envapi.DockerCredentials`. -/
structure DockerCredentials where
  Username : String
  Password : String
  RegistryURL : String
deriving DecidableEq

/-- Modelled from the spec: `EnvironmentDetails.Deployment` — the struct
definition is not under `src/`; the spec (§3) and the callers in
`src/unnamed/part_000` and `src/unnamed/part_001` fix the fields read by
the modelled code: server hostname, Kubernetes namespace, cloud region. -/
structure DeploymentInfo where
  ServerHostname : String
  KubernetesNamespace : String
  AwsRegion : String
deriving DecidableEq

/-- Modelled from the spec: `EnvironmentDetails`, the server-reported
facts about a deployment (spec §3); only the `Deployment` part is read
by the code under `src/`. -/
structure EnvironmentDetails where
  Deployment : DeploymentInfo
deriving DecidableEq

/-- The errors of the `envapi` broker layer, one constructor per
`fmt.Errorf`/`errors.New` site of `src/unnamed/part_000`. -/
inductive EnvError where
  | req (e : ReqError)
  | missingClusterInfo
  | missingNamespace
  | userInfoFailed (cause : String)
  | missingAccessKeyId
  | missingSecretAccessKey
  | awsCredentialsFailed (cause : EnvError)
  | configLoadFailed (cause : String)
  | ecrTokenFailed (cause : String)
  | emptyAuthorizationToken
  | base64DecodeFailed (cause : String)
  | authorizationTokenParse
deriving DecidableEq

/-- `TargetEnvironment.GetDetails`: GET `/v0/deployments/{humanId}`
decoded as JSON into `EnvironmentDetails`. -/
def GetDetails (target : TargetEnvironment)
    (unmarshal : String → Except String EnvironmentDetails)
    (transport : Transport) : Outcome ReqError EnvironmentDetails :=
  httpGetRequest (.json unmarshal) ("/v0/deployments/" ++ target.HumanId) transport

/-- `TargetEnvironment.GetAWSCredentials`: POST
`/v0/credentials/{humanId}/aws`.  The source reads
`awsCredentials.AccessKeyId` BEFORE checking `err`; on every error
return of `httpPostRequest` the pointer is nil, so that field access is
a nil-pointer dereference, modelled as `panicked`.  When the pointer is
non-nil (hence `err` is nil), the two emptiness checks run in order and
the final `return awsCredentials, err` returns the credentials. -/
def GetAWSCredentials (target : TargetEnvironment)
    (unmarshal : String → Except String AWSCredentials)
    (transport : Transport) : Outcome EnvError AWSCredentials :=
  match httpPostRequest (.json unmarshal)
      ("/v0/credentials/" ++ target.HumanId ++ "/aws") transport with
  | .panicked => .panicked
  | .err _ => .panicked
  | .ok awsCredentials =>
    if awsCredentials.AccessKeyId = "" then .err .missingAccessKeyId
    else if awsCredentials.SecretAccessKey = "" then .err .missingSecretAccessKey
    else .ok awsCredentials

/-- Value of one character of the standard base64 alphabet
(Go `encoding/base64.StdEncoding`). -/
def base64CharVal (c : Char) : Option Nat :=
  if 'A' ≤ c ∧ c ≤ 'Z' then some (c.toNat - 65)
  else if 'a' ≤ c ∧ c ≤ 'z' then some (c.toNat - 71)
  else if '0' ≤ c ∧ c ≤ '9' then some (c.toNat + 4)
  else if c = '+' then some 62
  else if c = '/' then some 63
  else none

/-- One character of the standard base64 alphabet from a 6-bit value. -/
def base64CharOf (v : Nat) : Char :=
  if v < 26 then Char.ofNat (v + 65)
  else if v < 52 then Char.ofNat (v + 71)
  else if v < 62 then Char.ofNat (v - 4)
  else if v = 62 then '+'
  else '/'

/-- Decode a base64 character stream in groups of four, with `=` padding
allowed only in the final group, as Go's `base64.StdEncoding.DecodeString`
does (non-strict: unused trailing bits are ignored). -/
def base64DecodeGroups : List Char → Except String (List Nat)
  | [] => .ok []
  | a :: b :: c :: d :: rest => do
    let va ← (base64CharVal a).elim (.error "illegal base64 data") .ok
    let vb ← (base64CharVal b).elim (.error "illegal base64 data") .ok
    if d = '=' then
      if rest ≠ [] then .error "illegal base64 data"
      else if c = '=' then .ok [va * 4 + vb / 16]
      else do
        let vc ← (base64CharVal c).elim (.error "illegal base64 data") .ok
        .ok [va * 4 + vb / 16, (vb % 16) * 16 + vc / 4]
    else do
      let vc ← (base64CharVal c).elim (.error "illegal base64 data") .ok
      let vd ← (base64CharVal d).elim (.error "illegal base64 data") .ok
      let tail ← base64DecodeGroups rest
      .ok ((va * 4 + vb / 16) :: ((vb % 16) * 16 + vc / 4) :: ((vc % 4) * 64 + vd) :: tail)
  | _ => .error "illegal base64 data"

/-- Go `base64.StdEncoding.DecodeString` followed by the `string(...)`
conversion of the Go source: the decoded bytes read back as a string
(bytes modelled as code points; the tokens this program decodes are
ASCII `user:password` pairs). -/
def base64DecodeString (s : String) : Except String String := do
  let bytes ← base64DecodeGroups s.data
  .ok (String.mk (bytes.map Char.ofNat))

/-- Encode bytes in groups of three, padding the final group, as Go's
`base64.StdEncoding.EncodeToString` does. -/
def base64EncodeGroups : List Nat → List Char
  | [] => []
  | [b1] => [base64CharOf (b1 / 4), base64CharOf (b1 % 4 * 16), '=', '=']
  | [b1, b2] =>
    [base64CharOf (b1 / 4), base64CharOf (b1 % 4 * 16 + b2 / 16),
     base64CharOf (b2 % 16 * 4), '=']
  | b1 :: b2 :: b3 :: rest =>
    base64CharOf (b1 / 4) :: base64CharOf (b1 % 4 * 16 + b2 / 16) ::
    base64CharOf (b2 % 16 * 4 + b3 / 64) :: base64CharOf (b3 % 64) ::
    base64EncodeGroups rest

/-- Go `base64.StdEncoding.EncodeToString` on a byte slice. -/
def base64EncodeToString (bytes : List Nat) : String :=
  String.mk (base64EncodeGroups bytes)

/-- Split a character list at the first occurrence of `sep`:
`none` when `sep` does not occur. -/
def splitFirst (sep : Char) : List Char → Option (List Char × List Char)
  | [] => none
  | c :: cs =>
    if c = sep then some ([], cs)
    else match splitFirst sep cs with
      | none => none
      | some (pre, post) => some (c :: pre, post)

/-- Go `strings.SplitN(s, sep, 2)` for a one-character separator: at most
two parts, split at the first occurrence; a string without the separator
(including the empty string) gives a single-element list. -/
def splitN2 (s : String) (sep : Char) : List String :=
  match splitFirst sep s.data with
  | none => [s]
  | some (pre, post) => [String.mk pre, String.mk post]

/-- `clientauthentication.Cluster` (external client-go type): the two
fields the modelled code reads — the CA bundle (a Go `[]byte`, modelled
as a byte list) and the API server URL. -/
structure ClusterSpec where
  CertificateAuthorityData : List Nat
  Server : String
deriving DecidableEq

/-- `clientauthentication.ExecCredentialSpec` (external client-go type),
restricted to the `Cluster` field the modelled code reads. -/
structure ExecCredentialSpec where
  Cluster : ClusterSpec
deriving DecidableEq

/-- `clientauthentication.ExecCredentialStatus` (external client-go
type); opaque to this layer, never read by the modelled code. -/
structure ExecCredentialStatus where
  Token : String
deriving DecidableEq

/-- `envapi.KubeExecCredential`. -/
structure KubeExecCredential where
  ApiVersion : String
  Kind : String
  Spec : ExecCredentialSpec
  Status : ExecCredentialStatus
deriving DecidableEq

/-- Modelled from the spec: `auth.UserInfo` — the `auth` package is not
under `src/`; the spec (§6) and the caller fix the one field read here,
the authenticated user's email. -/
structure UserInfo where
  Email : String
deriving DecidableEq

/-- `envapi.KubeConfigClusterData`. -/
structure KubeConfigClusterData where
  CertificateAuthorityData : String
  Server : String
deriving DecidableEq

/-- `envapi.KubeConfigCluster`. -/
structure KubeConfigCluster where
  Cluster : KubeConfigClusterData
  Name : String
deriving DecidableEq

/-- `envapi.KubeConfigContextData`. -/
structure KubeConfigContextData where
  Cluster : String
  User : String
  Namespace : String
deriving DecidableEq

/-- `envapi.KubeConfigContext`. -/
structure KubeConfigContext where
  Context : KubeConfigContextData
  Name : String
deriving DecidableEq

/-- `envapi.KubeConfigUserDataExec`. -/
structure KubeConfigUserDataExec where
  Command : String
  Args : List String
  ApiVersion : String
  InteractiveMode : String
deriving DecidableEq

/-- `envapi.KubeConfigUserData`; `Token` keeps the Go zero value `""`
when the struct literal does not set it. -/
structure KubeConfigUserData where
  Token : String
  Exec : KubeConfigUserDataExec
deriving DecidableEq

/-- `envapi.KubeConfigUser`. -/
structure KubeConfigUser where
  Name : String
  User : KubeConfigUserData
deriving DecidableEq

/-- `envapi.KubeConfig`; `Preferences` is the Go
`map[string]interface{}`, only ever the empty map here, modelled as an
association list of strings. -/
structure KubeConfig where
  ApiVersion : String
  Clusters : List KubeConfigCluster
  Contexts : List KubeConfigContext
  CurrentContext : String
  Kind : String
  Preferences : List (String × String)
  Users : List KubeConfigUser
deriving DecidableEq

/-- The external interactions of `GetKubeConfigWithExecCredential`, in
the order the source can perform them: the POST to the execcredential
endpoint, the GET of the deployment details, and the identity lookup
`auth.FetchUserInfo`. -/
inductive CallTag where
  | execCredentialPost
  | getDetails
  | fetchUserInfo
deriving DecidableEq

/-- The outcomes of the external calls `GetKubeConfigWithExecCredential`
may perform, passed as inputs: the transports and JSON decoders of its
two HTTP calls and the result of `auth.FetchUserInfo` (an external
collaborator, so only its outcome is modelled). -/
structure ExecEnv where
  execCredTransport : Transport
  execCredUnmarshal : String → Except String KubeExecCredential
  detailsTransport : Transport
  detailsUnmarshal : String → Except String EnvironmentDetails
  userInfoResult : Except String UserInfo

/-- The `KubeConfig` struct literal of source lines 221–265, assembled
from the exec-credential payload, the deployment details, the user
identity and the target environment. -/
def assembleKubeConfig (credentials : KubeExecCredential)
    (environment : EnvironmentDetails) (userinfo : UserInfo)
    (target : TargetEnvironment) : KubeConfig :=
  { ApiVersion := "v1"
    Clusters := [{ Cluster :=
                     { CertificateAuthorityData :=
                         base64EncodeToString credentials.Spec.Cluster.CertificateAuthorityData
                       Server := credentials.Spec.Cluster.Server }
                   Name := credentials.Spec.Cluster.Server }]
    Contexts := [{ Context :=
                     { Cluster := credentials.Spec.Cluster.Server
                       Namespace := environment.Deployment.KubernetesNamespace
                       User := userinfo.Email }
                   Name := target.HumanId }]
    CurrentContext := target.HumanId
    Kind := "Config"
    Preferences := []
    Users := [{ Name := userinfo.Email
                User := { Token := ""
                          Exec := { Command := "metaplay"
                                    Args := ["environment",
                                             "get-kubernetes-execcredential",
                                             "--stack-api",
                                             target.StackApiBaseURL,
                                             "--environment",
                                             target.HumanId]
                                    ApiVersion := "client.authentication.k8s.io/v1beta1"
                                    InteractiveMode := "Never" } } }] }

/-- `TargetEnvironment.GetKubeConfigWithExecCredential` (source lines
192–268): POST the execcredential endpoint and decode; fail if
`spec.cluster` has neither CA data nor server; `GetDetails`; fail if the
namespace is empty; `auth.FetchUserInfo`; assemble the document.  The Go
function returns `yaml.Marshal` of the document (its error silently
dropped); the document value and its serialization (`yamlOfKubeConfig`)
are modelled separately.  The second component records which external
calls were performed, in order. -/
def GetKubeConfigWithExecCredential (target : TargetEnvironment)
    (env : ExecEnv) : Outcome EnvError KubeConfig × List CallTag :=
  let path := "/v0/credentials/" ++ target.HumanId ++ "/k8s?type=execcredential"
  match httpPostRequest (.json env.execCredUnmarshal) path env.execCredTransport with
  | .panicked => (.panicked, [.execCredentialPost])
  | .err e => (.err (.req e), [.execCredentialPost])
  | .ok credentials =>
    if credentials.Spec.Cluster.CertificateAuthorityData = [] ∧
        credentials.Spec.Cluster.Server = "" then
      (.err .missingClusterInfo, [.execCredentialPost])
    else
      match GetDetails target env.detailsUnmarshal env.detailsTransport with
      | .panicked => (.panicked, [.execCredentialPost, .getDetails])
      | .err e => (.err (.req e), [.execCredentialPost, .getDetails])
      | .ok environment =>
        if environment.Deployment.KubernetesNamespace = "" then
          (.err .missingNamespace, [.execCredentialPost, .getDetails])
        else
          match env.userInfoResult with
          | .error cause =>
            (.err (.userInfoFailed cause),
             [.execCredentialPost, .getDetails, .fetchUserInfo])
          | .ok userinfo =>
            (.ok (assembleKubeConfig credentials environment userinfo target),
             [.execCredentialPost, .getDetails, .fetchUserInfo])

/-- `types.AuthorizationData` (external AWS SDK type): the two optional
fields the modelled code reads. -/
structure AuthorizationData where
  AuthorizationToken : Option String
  ProxyEndpoint : Option String
deriving DecidableEq

/-- `ecr.GetAuthorizationTokenOutput` (external AWS SDK type),
restricted to the field the modelled code reads. -/
structure EcrTokenResponse where
  AuthorizationData : List AuthorizationData
deriving DecidableEq

/-- The outcomes of the external calls `GetDockerCredentials` may
perform, passed as inputs: the AWS-credential POST (transport and
decoder, routed through `GetAWSCredentials`), `config.LoadDefaultConfig`
and the ECR `GetAuthorizationToken` call (external collaborators, so
only their outcomes are modelled). -/
structure DockerEnv where
  awsTransport : Transport
  awsUnmarshal : String → Except String AWSCredentials
  configLoad : Except String Unit
  ecrToken : Except String EcrTokenResponse

/-- `TargetEnvironment.GetDockerCredentials` (source lines 285–350):
chain `GetAWSCredentials` (its error wrapped as
`failed to get AWS credentials: %v`), the AWS config load, the ECR
authorization-token fetch; reject an empty result list or a first
element missing the token or proxy endpoint; base64-decode the token and
split it on the first colon into username and password. -/
def GetDockerCredentials (target : TargetEnvironment) (env : DockerEnv) :
    Outcome EnvError DockerCredentials :=
  match GetAWSCredentials target env.awsUnmarshal env.awsTransport with
  | .panicked => .panicked
  | .err e => .err (.awsCredentialsFailed e)
  | .ok _awsCredentials =>
    match env.configLoad with
    | .error cause => .err (.configLoadFailed cause)
    | .ok _ =>
      match env.ecrToken with
      | .error cause => .err (.ecrTokenFailed cause)
      | .ok response =>
        match response.AuthorizationData with
        | [] => .err .emptyAuthorizationToken
        | first :: _ =>
          match first.AuthorizationToken, first.ProxyEndpoint with
          | some authorization64, some registryURL =>
            (match base64DecodeString authorization64 with
             | .error cause => .err (.base64DecodeFailed cause)
             | .ok authorization =>
               match splitN2 authorization ':' with
               | [username, password] =>
                 .ok { Username := username
                       Password := password
                       RegistryURL := registryURL }
               | _ => .err .authorizationTokenParse)
          | _, _ => .err .emptyAuthorizationToken

/-- Modelled from the spec: the document model of the external `yaml.v3`
library.  `yaml.Marshal` renders a Go value to text through this tree;
the text rendering and reparsing is the library's faithful round trip,
so serialize-then-parse is modelled as producing and reading this tree. -/
inductive Yaml where
  | str (s : String)
  | seq (items : List Yaml)
  | map (entries : List (String × Yaml))

/-- Association lookup in a YAML mapping node. -/
def yamlLookup (key : String) : List (String × Yaml) → Option Yaml
  | [] => none
  | (k, v) :: rest => if k = key then some v else yamlLookup key rest

/-- Read a scalar string from a YAML node. -/
def yamlGetStr : Yaml → Option String
  | .str s => some s
  | _ => none

/-- `yaml.Marshal` of `KubeConfigClusterData`, following the struct tags. -/
def yamlOfClusterData (d : KubeConfigClusterData) : Yaml :=
  .map [("certificate-authority-data", .str d.CertificateAuthorityData),
        ("server", .str d.Server)]

/-- `yaml.Marshal` of `KubeConfigCluster`, following the struct tags. -/
def yamlOfCluster (c : KubeConfigCluster) : Yaml :=
  .map [("cluster", yamlOfClusterData c.Cluster), ("name", .str c.Name)]

/-- `yaml.Marshal` of `KubeConfigContextData`, following the struct tags. -/
def yamlOfContextData (d : KubeConfigContextData) : Yaml :=
  .map [("cluster", .str d.Cluster), ("user", .str d.User),
        ("namespace", .str d.Namespace)]

/-- `yaml.Marshal` of `KubeConfigContext`, following the struct tags. -/
def yamlOfContext (c : KubeConfigContext) : Yaml :=
  .map [("context", yamlOfContextData c.Context), ("name", .str c.Name)]

/-- `yaml.Marshal` of `KubeConfigUserDataExec`, following the struct tags. -/
def yamlOfUserDataExec (e : KubeConfigUserDataExec) : Yaml :=
  .map [("command", .str e.Command),
        ("args", .seq (e.Args.map .str)),
        ("apiVersion", .str e.ApiVersion),
        ("interactiveMode", .str e.InteractiveMode)]

/-- `yaml.Marshal` of `KubeConfigUserData`, following the struct tags. -/
def yamlOfUserData (u : KubeConfigUserData) : Yaml :=
  .map [("token", .str u.Token), ("exec", yamlOfUserDataExec u.Exec)]

/-- `yaml.Marshal` of `KubeConfigUser`, following the struct tags. -/
def yamlOfUser (u : KubeConfigUser) : Yaml :=
  .map [("name", .str u.Name), ("user", yamlOfUserData u.User)]

/-- `yaml.Marshal` of the whole `KubeConfig`, following the struct tags. -/
def yamlOfKubeConfig (k : KubeConfig) : Yaml :=
  .map [("apiVersion", .str k.ApiVersion),
        ("clusters", .seq (k.Clusters.map yamlOfCluster)),
        ("contexts", .seq (k.Contexts.map yamlOfContext)),
        ("current-context", .str k.CurrentContext),
        ("kind", .str k.Kind),
        ("preferences", .map (k.Preferences.map fun p => (p.1, .str p.2))),
        ("users", .seq (k.Users.map yamlOfUser))]

/-- Read back, from a serialized kubeconfig document, the four
identifiers of the spec's round-trip property: the `current-context`
value, the (single) context's name, the (single) cluster's name and the
(single) user's name.  Fails unless each of the three sections holds
exactly one entry carrying a scalar `name`. -/
def yamlFourIdentifiers (y : Yaml) : Option (String × String × String × String) :=
  match y with
  | .map entries =>
    match yamlLookup "current-context" entries >>= yamlGetStr,
          yamlLookup "contexts" entries, yamlLookup "clusters" entries,
          yamlLookup "users" entries with
    | some currentContext, some (.seq [.map ctx]), some (.seq [.map cl]),
        some (.seq [.map us]) =>
      match yamlLookup "name" ctx >>= yamlGetStr,
            yamlLookup "name" cl >>= yamlGetStr,
            yamlLookup "name" us >>= yamlGetStr with
      | some contextName, some clusterName, some userName =>
        some (currentContext, contextName, clusterName, userName)
      | _, _, _ => none
    | _, _, _, _ => none
  | _ => none

/-- A concrete target environment for concrete runs. -/
def targetConcrete : TargetEnvironment :=
  { StackApiBaseURL := "https://infra.example.com/stackapi"
    HumanId := "tiny-squids" }

/-- A concrete, well-formed exec-credential payload. -/
def credsOkConcrete : KubeExecCredential :=
  { ApiVersion := "client.authentication.k8s.io/v1beta1"
    Kind := "ExecCredential"
    Spec := { Cluster := { CertificateAuthorityData := [99, 97, 100, 97, 116, 97]
                           Server := "https://k8s.example.com" } }
    Status := { Token := "ephemeral" } }

/-- A concrete exec-credential payload whose `spec.cluster` is empty. -/
def credsEmptyClusterConcrete : KubeExecCredential :=
  { ApiVersion := "client.authentication.k8s.io/v1beta1"
    Kind := "ExecCredential"
    Spec := { Cluster := { CertificateAuthorityData := [], Server := "" } }
    Status := { Token := "" } }

/-- Concrete deployment details with a non-empty namespace. -/
def detailsOkConcrete : EnvironmentDetails :=
  ⟨{ ServerHostname := "server.example.com"
     KubernetesNamespace := "metaplay-tiny-squids"
     AwsRegion := "eu-west-1" }⟩

/-- Concrete deployment details with an empty namespace. -/
def detailsEmptyNsConcrete : EnvironmentDetails :=
  ⟨{ ServerHostname := "server.example.com"
     KubernetesNamespace := ""
     AwsRegion := "eu-west-1" }⟩

/-- Concrete external-call outcomes on which
`GetKubeConfigWithExecCredential` succeeds end to end. -/
def execEnvOk : ExecEnv :=
  { execCredTransport := .response 200 "{}"
    execCredUnmarshal := fun _ => .ok credsOkConcrete
    detailsTransport := .response 200 "{}"
    detailsUnmarshal := fun _ => .ok detailsOkConcrete
    userInfoResult := .ok ⟨"dev@example.com"⟩ }

/-- Concrete external-call outcomes whose exec-credential payload has an
empty `spec.cluster`. -/
def execEnvMissingCluster : ExecEnv :=
  { execEnvOk with execCredUnmarshal := fun _ => .ok credsEmptyClusterConcrete }

/-- Concrete external-call outcomes whose deployment details report an
empty namespace. -/
def execEnvEmptyNamespace : ExecEnv :=
  { execEnvOk with detailsUnmarshal := fun _ => .ok detailsEmptyNsConcrete }

/-- The kubeconfig document assembled on `execEnvOk`. -/
def kubeConfigOkConcrete : KubeConfig :=
  assembleKubeConfig credsOkConcrete detailsOkConcrete ⟨"dev@example.com"⟩ targetConcrete

/-- Concrete external-call outcomes on which `GetDockerCredentials`
succeeds: the registry token is base64 of `abc:de:f`. -/
def dockerEnvOk : DockerEnv :=
  { awsTransport := .response 200 "{}"
    awsUnmarshal := fun _ => .ok ⟨"AKIAEXAMPLE", "secret", "session", "2026-01-01"⟩
    configLoad := .ok ()
    ecrToken := .ok ⟨[{ AuthorizationToken := some "YWJjOmRlOmY="
                        ProxyEndpoint := some "https://123.dkr.ecr.example.com" }]⟩ }

/-- Concrete external-call outcomes whose authorization-token response
has an empty result list. -/
def dockerEnvEmptyList : DockerEnv :=
  { dockerEnvOk with ecrToken := .ok ⟨[]⟩ }

/-- Concrete external-call outcomes whose authorization token is not
valid base64. -/
def dockerEnvBadBase64 : DockerEnv :=
  { dockerEnvOk with
      ecrToken := .ok ⟨[{ AuthorizationToken := some "!not-base64!"
                          ProxyEndpoint := some "https://123.dkr.ecr.example.com" }]⟩ }

end envapi

namespace metahttp

/-- `metahttp.Client`: base URL of the target API; the token set and the
bound resty client are modelled by the `Transport` input of each call. -/
structure Client where
  BaseURL : String
deriving DecidableEq

/-- Response handling shared by the `GET`/`POST`/`PUT` arms of
`metahttp.Request` (source lines 413–440): error check, then status
check against [200,300), then the plaintext/JSON discrimination.  The
second component is the list of `log.Error` messages emitted: the
unmarshal branch logs
`Failed to unmarshal response: <err>, raw body: <body>`. -/
def handleResponse {T : Type} (mode : DecodeMode T) (c : Client)
    (method url : String) (transport : Transport) :
    Outcome ReqError T × List String :=
  match transport with
  | .failure cause => (.err (.requestFailed method (c.BaseURL ++ url) cause), [])
  | .response statusCode body =>
    if statusCode < 200 ∨ 300 ≤ statusCode then
      (.err (.statusFailed method (c.BaseURL ++ url) statusCode), [])
    else
      match mode with
      | .plaintext ofString => (.ok (ofString body), [])
      | .json unmarshal =>
        match unmarshal body with
        | .ok val => (.ok val, [])
        | .error cause =>
          (.err (.rawJsonError cause),
           ["Failed to unmarshal response: " ++ cause ++ ", raw body: " ++ body])

/-- `metahttp.Request`: dispatch on the HTTP method string.
`http.MethodGet` ("GET"), `http.MethodPost` ("POST") and `http.MethodPut`
("PUT") are implemented; every other method hits
`log.Panic().Msgf("HTTP request method '%s' not implemented", method)`. -/
def Request {T : Type} (mode : DecodeMode T) (c : Client) (method url : String)
    (transport : Transport) : Outcome ReqError T × List String :=
  match method with
  | "GET" => handleResponse mode c "GET" url transport
  | "POST" => handleResponse mode c "POST" url transport
  | "PUT" => handleResponse mode c "PUT" url transport
  | _ => (.panicked, [])

end metahttp

end MetaplayCli

namespace MetaplayCli

open envapi metahttp

/-- Claim C1: the spec requires that when the POST to
`/v0/credentials/{humanId}/aws` fails (transport error or non-2xx
status) the error is surfaced as the result with no credentials value.
The code instead reads `awsCredentials.AccessKeyId` before checking
`err`; on every failed request the credentials pointer is nil, so the
call panics with a nil-pointer dereference instead of returning the
error — evaluated here at a 500 response and at a transport failure. -/
theorem getAWSCredentials_panics_on_http_error :
    GetAWSCredentials targetConcrete
      (fun _ => .error "unexpected") (.response 500 "oops") = .panicked ∧
    GetAWSCredentials targetConcrete
      (fun _ => .error "unexpected") (.failure "connection refused") = .panicked :=
  ⟨rfl, rfl⟩

/-- Claim C7: when the AWS-credential POST succeeds with HTTP 200 and the body
decodes, a non-empty `AccessKeyId` with an empty `SecretAccessKey` is
rejected naming the secret access key, and an empty `AccessKeyId` is
rejected naming the access key id; in both cases no credentials value is
returned. -/
theorem getAWSCredentials_incomplete_credential (target : TargetEnvironment)
    (unmarshal : String → Except String AWSCredentials) (body : String)
    (creds : AWSCredentials) (hdec : unmarshal body = .ok creds) :
    (creds.AccessKeyId ≠ "" → creds.SecretAccessKey = "" →
      GetAWSCredentials target unmarshal (.response 200 body) =
        .err .missingSecretAccessKey) ∧
    (creds.AccessKeyId = "" →
      GetAWSCredentials target unmarshal (.response 200 body) =
        .err .missingAccessKeyId) := by
  constructor
  · intro hak hsk
    simp [GetAWSCredentials, httpPostRequest, httpRequest, envapi.handleResponse,
      hdec, hak, hsk]
  · intro hak
    simp [GetAWSCredentials, httpPostRequest, httpRequest, envapi.handleResponse,
      hdec, hak]

/-- Witness for C7: a 200 response decoding to
`AccessKeyId = "AKIAEXAMPLE", SecretAccessKey = ""` is rejected naming
the secret access key. -/
theorem getAWSCredentials_incomplete_credential_witness :
    GetAWSCredentials targetConcrete
      (fun _ => .ok ⟨"AKIAEXAMPLE", "", "", ""⟩) (.response 200 "{}") =
      .err .missingSecretAccessKey := by
  have h := getAWSCredentials_incomplete_credential targetConcrete
    (fun _ => .ok ⟨"AKIAEXAMPLE", "", "", ""⟩) "{}" ⟨"AKIAEXAMPLE", "", "", ""⟩ rfl
  exact h.1 (by decide) rfl

/-- Claim C8 as amended: for a structured (JSON) request through
`metahttp.Request` whose 2xx response body fails JSON parsing, the
returned error is the raw parse error unwrapped — it carries the parse
cause but no path — while the malformed body is preserved in the logged
diagnostic and does not appear in the returned error value. -/
theorem request_json_decode_failure {T : Type}
    (unmarshal : String → Except String T) (c : Client)
    (url body cause : String) (statusCode : Nat)
    (hge : 200 ≤ statusCode) (hlt : statusCode < 300)
    (hdec : unmarshal body = .error cause) :
    Request (.json unmarshal) c "POST" url (.response statusCode body) =
      (.err (.rawJsonError cause),
       ["Failed to unmarshal response: " ++ cause ++ ", raw body: " ++ body]) := by
  show metahttp.handleResponse (.json unmarshal) c "POST" url
    (.response statusCode body) = _
  unfold metahttp.handleResponse
  dsimp only
  rw [if_neg (by omega)]
  simp [hdec]

/-- Witness for C8 (amended): a concrete malformed 2xx body produces the
raw parse error and the diagnostic log line containing the body. -/
theorem request_json_decode_failure_witness :
    Request (.json fun _ => (.error "invalid character" : Except String Nat))
      ⟨"https://api.metaplay.io"⟩ "POST" "/v0/credentials"
      (.response 200 "garbage") =
      (.err (.rawJsonError "invalid character"),
       ["Failed to unmarshal response: " ++ "invalid character" ++
        ", raw body: " ++ "garbage"]) :=
  request_json_decode_failure
    (fun _ => (.error "invalid character" : Except String Nat))
    ⟨"https://api.metaplay.io"⟩ "/v0/credentials" "garbage" "invalid character"
    200 (by decide) (by decide) rfl

/-- Claim C8 counterexample: at a concrete malformed 2xx response the returned
error is the raw parse error, and it is the same value for two distinct
request paths — so the returned error's identity is the raw parse
exception, not a `DecodeError` carrying the path, refuting the claim as
stated. -/
theorem request_decode_error_carries_no_path :
    (Request (.json fun _ => (.error "invalid character" : Except String Nat))
       ⟨"https://api.metaplay.io"⟩ "POST" "/v0/alpha" (.response 200 "garbage")).1 =
      .err (.rawJsonError "invalid character") ∧
    (Request (.json fun _ => (.error "invalid character" : Except String Nat))
       ⟨"https://api.metaplay.io"⟩ "POST" "/v0/beta" (.response 200 "garbage")).1 =
      .err (.rawJsonError "invalid character") :=
  ⟨rfl, rfl⟩

/-- Auxiliary: `metahttp.handleResponse` never panics. -/
theorem metahttp_handleResponse_no_panic {T : Type} (mode : DecodeMode T)
    (c : Client) (method url : String) (transport : Transport) :
    (metahttp.handleResponse mode c method url transport).1 ≠ Outcome.panicked := by
  unfold metahttp.handleResponse
  rcases transport with cause | ⟨s, b⟩
  · simp
  · dsimp only
    split
    · simp
    · rcases mode with f | u
      · simp
      · dsimp only
        rcases h : u b with val | cause <;> simp

/-- Auxiliary: `envapi.handleResponse` never panics. -/
theorem envapi_handleResponse_no_panic {T : Type} (mode : DecodeMode T)
    (method path : String) (transport : Transport) :
    envapi.handleResponse mode method path transport ≠ Outcome.panicked := by
  unfold envapi.handleResponse
  rcases transport with cause | ⟨s, b⟩
  · simp
  · dsimp only
    split
    · simp
    · rcases mode with f | u
      · simp
      · dsimp only
        rcases h : u b with val | cause <;> simp

/-- Claim C9 as amended: `metahttp.Request` accepts each of GET, POST and PUT —
for these verbs it issues the request and returns a result or an error,
never reaching the unimplemented-method panic branch — while
`envapi.httpRequest` implements only GET and POST (its panic branch is
unreachable for those two verbs; a PUT through it panics, settled by the
counterexample). -/
theorem request_get_post_put_no_panic {T : Type} (mode : DecodeMode T)
    (c : Client) (method url : String) (transport : Transport)
    (hm : method = "GET" ∨ method = "POST" ∨ method = "PUT") :
    (Request mode c method url transport).1 ≠ Outcome.panicked ∧
    (∀ path, method = "GET" ∨ method = "POST" →
      envapi.httpRequest mode method path transport ≠ Outcome.panicked) := by
  refine ⟨?_, ?_⟩
  · rcases hm with h | h | h <;> subst h <;>
      simpa [Request] using metahttp_handleResponse_no_panic mode c _ url transport
  · intro path h2
    rcases h2 with h | h <;> subst h <;>
      simpa [httpRequest] using envapi_handleResponse_no_panic mode _ path transport

/-- Witness for C9 (amended): a PUT through `metahttp.Request` on a
healthy transport does not panic. -/
theorem request_get_post_put_no_panic_witness :
    (Request (.plaintext id) ⟨"https://api.metaplay.io"⟩ "PUT" "/v0/x"
      (.response 200 "ok")).1 ≠ Outcome.panicked :=
  (request_get_post_put_no_panic (.plaintext id) ⟨"https://api.metaplay.io"⟩
    "PUT" "/v0/x" (.response 200 "ok") (Or.inr (Or.inr rfl))).1

/-- Auxiliary: `splitFirst` finds no split exactly when the separator
does not occur. -/
theorem splitFirst_none_iff (sep : Char) (l : List Char) :
    splitFirst sep l = none ↔ sep ∉ l := by
  induction l with
  | nil => simp [splitFirst]
  | cons c cs ih =>
    by_cases h : c = sep
    · subst h
      simp [splitFirst]
    · rw [splitFirst, if_neg h]
      rcases hs : splitFirst sep cs with _ | ⟨pre, post⟩ <;> rw [hs] at ih
      · constructor
        · intro _
          simp only [List.mem_cons, not_or]
          exact ⟨fun hh => h hh.symm, ih.mp rfl⟩
        · intro _
          rfl
      · have hmem : sep ∈ cs := by
          by_contra hn
          cases ih.mpr hn
        constructor
        · intro hfalse
          cases hfalse
        · intro hnot
          exact absurd (List.mem_cons_of_mem c hmem) hnot

/-- Auxiliary: `splitFirst` splits at the first occurrence of the
separator. -/
theorem splitFirst_append_cons (sep : Char) (u p : List Char) (h : sep ∉ u) :
    splitFirst sep (u ++ sep :: p) = some (u, p) := by
  induction u with
  | nil => simp [splitFirst]
  | cons c cs ih =>
    have hc : c ≠ sep := fun hcs => h (hcs ▸ List.mem_cons_self c cs)
    have hin : sep ∉ cs := fun hm => h (List.mem_cons_of_mem c hm)
    rw [List.cons_append, splitFirst, if_neg hc, ih hin]

/-- Claim C5: when the derivation reaches the token-parsing step with a
successfully decoded authorization token, a token without a colon is
rejected with the parse error, and a token `username ++ ":" ++ password`
(no colon in the username) splits at the first colon — the password
keeps any further colons. -/
theorem dockerCredentials_first_colon_split (target : TargetEnvironment)
    (env : DockerEnv) (creds : AWSCredentials)
    (haws : GetAWSCredentials target env.awsUnmarshal env.awsTransport = .ok creds)
    (hcfg : env.configLoad = .ok ())
    (first : AuthorizationData) (rest : List AuthorizationData)
    (hecr : env.ecrToken = .ok ⟨first :: rest⟩)
    (tok64 registryURL : String)
    (htok : first.AuthorizationToken = some tok64)
    (hep : first.ProxyEndpoint = some registryURL)
    (authorization : String)
    (hdecode : base64DecodeString tok64 = .ok authorization) :
    (':' ∉ authorization.data →
      GetDockerCredentials target env = .err .authorizationTokenParse) ∧
    (∀ username password : String,
      authorization = username ++ ":" ++ password → ':' ∉ username.data →
      GetDockerCredentials target env =
        .ok { Username := username, Password := password,
              RegistryURL := registryURL }) := by
  constructor
  · intro hnc
    simp [GetDockerCredentials, haws, hcfg, hecr, htok, hep, hdecode, splitN2,
      (splitFirst_none_iff ':' authorization.data).mpr hnc]
  · intro username password heq hnc
    have hdata : authorization.data = username.data ++ ':' :: password.data := by
      subst heq
      simp [String.data_append]
    simp [GetDockerCredentials, haws, hcfg, hecr, htok, hep, hdecode, splitN2,
      hdata, splitFirst_append_cons ':' username.data password.data hnc]

/-- Witness for C5: the token `YWJjOmRlOmY=` (base64 of `abc:de:f`)
yields username `abc` and password `de:f`. -/
theorem dockerCredentials_first_colon_split_witness :
    GetDockerCredentials targetConcrete dockerEnvOk =
      .ok { Username := "abc", Password := "de:f",
            RegistryURL := "https://123.dkr.ecr.example.com" } := by
  have h := dockerCredentials_first_colon_split targetConcrete dockerEnvOk
    ⟨"AKIAEXAMPLE", "secret", "session", "2026-01-01"⟩ rfl rfl
    ⟨some "YWJjOmRlOmY=", some "https://123.dkr.ecr.example.com"⟩ [] rfl
    "YWJjOmRlOmY=" "https://123.dkr.ecr.example.com" rfl rfl "abc:de:f" rfl
  exact h.2 "abc" "de:f" rfl (by decide)

/-- Claim C6: an authorization-token response with an empty result list, or
whose first element is missing the authorization token or the proxy
endpoint, fails with the empty-authorization-token error, and no
credentials value (zero-valued or otherwise) is returned. -/
theorem dockerCredentials_empty_token_response (target : TargetEnvironment)
    (env : DockerEnv) (creds : AWSCredentials)
    (haws : GetAWSCredentials target env.awsUnmarshal env.awsTransport = .ok creds)
    (hcfg : env.configLoad = .ok ())
    (resp : EcrTokenResponse) (hecr : env.ecrToken = .ok resp)
    (hbad : resp.AuthorizationData = [] ∨
      ∃ first rest, resp.AuthorizationData = first :: rest ∧
        (first.AuthorizationToken = none ∨ first.ProxyEndpoint = none)) :
    GetDockerCredentials target env = .err .emptyAuthorizationToken ∧
    ∀ dc : DockerCredentials, GetDockerCredentials target env ≠ .ok dc := by
  have hmain : GetDockerCredentials target env = .err .emptyAuthorizationToken := by
    rcases hbad with hnil | ⟨first, rest, hcons, hmiss⟩
    · simp [GetDockerCredentials, haws, hcfg, hecr, hnil]
    · rcases hmiss with h1 | h1
      · simp [GetDockerCredentials, haws, hcfg, hecr, hcons, h1]
      · rcases htk : first.AuthorizationToken with _ | tk <;>
          simp [GetDockerCredentials, haws, hcfg, hecr, hcons, h1, htk]
  refine ⟨hmain, fun dc hok => ?_⟩
  rw [hmain] at hok
  cases hok

/-- Witness for C6: an empty result list yields the
empty-authorization-token error. -/
theorem dockerCredentials_empty_token_response_witness :
    GetDockerCredentials targetConcrete dockerEnvEmptyList =
      .err .emptyAuthorizationToken :=
  (dockerCredentials_empty_token_response targetConcrete dockerEnvEmptyList
    ⟨"AKIAEXAMPLE", "secret", "session", "2026-01-01"⟩ rfl rfl ⟨[]⟩ rfl
    (Or.inl rfl)).1

/-- Claim C10: when the derivation reaches the token with an authorization
token that is not valid base64, the base64-decoding error is returned (a
value distinct from the colon-split parse error) and no credentials are
produced; and the parse error arises only when base64 decoding succeeded
and the decoded token has no colon. -/
theorem dockerCredentials_base64_error_distinct (target : TargetEnvironment)
    (env : DockerEnv) (creds : AWSCredentials)
    (haws : GetAWSCredentials target env.awsUnmarshal env.awsTransport = .ok creds)
    (hcfg : env.configLoad = .ok ())
    (first : AuthorizationData) (rest : List AuthorizationData)
    (hecr : env.ecrToken = .ok ⟨first :: rest⟩)
    (tok64 registryURL : String)
    (htok : first.AuthorizationToken = some tok64)
    (hep : first.ProxyEndpoint = some registryURL) :
    (∀ cause, base64DecodeString tok64 = .error cause →
      GetDockerCredentials target env = .err (.base64DecodeFailed cause) ∧
      EnvError.base64DecodeFailed cause ≠ EnvError.authorizationTokenParse) ∧
    (GetDockerCredentials target env = .err .authorizationTokenParse →
      ∃ authorization, base64DecodeString tok64 = .ok authorization ∧
        ':' ∉ authorization.data) := by
  constructor
  · intro cause hdec
    refine ⟨?_, by simp⟩
    simp [GetDockerCredentials, haws, hcfg, hecr, htok, hep, hdec]
  · intro hres
    rcases hdec : base64DecodeString tok64 with cause | authorization
    · rw [show GetDockerCredentials target env = .err (.base64DecodeFailed cause) by
        simp [GetDockerCredentials, haws, hcfg, hecr, htok, hep, hdec]] at hres
      cases hres
    · refine ⟨authorization, rfl, fun hmem => ?_⟩
      rcases hsp : splitFirst ':' authorization.data with _ | ⟨pre, post⟩
      · exact (splitFirst_none_iff ':' authorization.data).mp hsp hmem
      · rw [show GetDockerCredentials target env =
            .ok { Username := String.mk pre, Password := String.mk post,
                  RegistryURL := registryURL } by
          simp [GetDockerCredentials, haws, hcfg, hecr, htok, hep, hdec,
            splitN2, hsp]] at hres
        cases hres

/-- Witness for C10: the non-base64 token `!not-base64!` yields the
base64-decoding error, not the parse error. -/
theorem dockerCredentials_base64_error_distinct_witness :
    GetDockerCredentials targetConcrete dockerEnvBadBase64 =
      .err (.base64DecodeFailed "illegal base64 data") :=
  ((dockerCredentials_base64_error_distinct targetConcrete dockerEnvBadBase64
    ⟨"AKIAEXAMPLE", "secret", "session", "2026-01-01"⟩ rfl rfl
    ⟨some "!not-base64!", some "https://123.dkr.ecr.example.com"⟩ [] rfl
    "!not-base64!" "https://123.dkr.ecr.example.com" rfl rfl).1
    "illegal base64 data" rfl).1

/-- Auxiliary: a successful `GetKubeConfigWithExecCredential` run
returns exactly the document assembled by `assembleKubeConfig`. -/
theorem getKubeConfig_ok_shape (target : TargetEnvironment) (env : ExecEnv)
    (kc : KubeConfig) (trace : List CallTag)
    (h : GetKubeConfigWithExecCredential target env = (.ok kc, trace)) :
    ∃ credentials environment userinfo,
      kc = assembleKubeConfig credentials environment userinfo target := by
  simp only [GetKubeConfigWithExecCredential] at h
  repeat' split at h
  all_goals simp only [Prod.mk.injEq] at h
  all_goals try (cases h.1)
  refine ⟨_, _, _, rfl⟩

/-- Claim C2: `GetKubeConfigWithExecCredential` performs its external steps in
order and aborts at the first failure: an exec-credential payload with
neither CA data nor server URL fails with the missing-cluster-info error
with only the exec-credential POST performed (the deployment-details
call is observably not made); an empty reported namespace fails with the
missing-namespace error with only the POST and the details call
performed (the identity provider is observably not invoked); and on
every run the performed calls are a prefix of
exec-credential POST, details GET, identity lookup, in that order. -/
theorem getKubeConfigWithExecCredential_aborts_in_order
    (target : TargetEnvironment) (env : ExecEnv)
    (credentials : KubeExecCredential)
    (hcred : httpPostRequest (.json env.execCredUnmarshal)
      ("/v0/credentials/" ++ target.HumanId ++ "/k8s?type=execcredential")
      env.execCredTransport = .ok credentials) :
    (credentials.Spec.Cluster.CertificateAuthorityData = [] →
      credentials.Spec.Cluster.Server = "" →
      GetKubeConfigWithExecCredential target env =
        (.err .missingClusterInfo, [CallTag.execCredentialPost])) ∧
    (∀ environment : EnvironmentDetails,
      ¬(credentials.Spec.Cluster.CertificateAuthorityData = [] ∧
        credentials.Spec.Cluster.Server = "") →
      GetDetails target env.detailsUnmarshal env.detailsTransport = .ok environment →
      environment.Deployment.KubernetesNamespace = "" →
      GetKubeConfigWithExecCredential target env =
        (.err .missingNamespace, [CallTag.execCredentialPost, CallTag.getDetails])) ∧
    (∀ (target2 : TargetEnvironment) (env2 : ExecEnv), ∃ t,
      (GetKubeConfigWithExecCredential target2 env2).2 ++ t =
        [CallTag.execCredentialPost, CallTag.getDetails, CallTag.fetchUserInfo]) := by
  refine ⟨?_, ?_, ?_⟩
  · intro hca hsv
    simp [GetKubeConfigWithExecCredential, hcred, hca, hsv]
  · intro environment hcl hdet hns
    simp [GetKubeConfigWithExecCredential, hcred, hcl, hdet, hns]
  · intro target2 env2
    simp only [GetKubeConfigWithExecCredential]
    repeat' split
    all_goals first
      | exact ⟨[CallTag.getDetails, CallTag.fetchUserInfo], rfl⟩
      | exact ⟨[CallTag.fetchUserInfo], rfl⟩
      | exact ⟨[], rfl⟩

/-- Witness for C2: an exec-credential payload with an empty
`spec.cluster` aborts with the missing-cluster-info error after only the
exec-credential POST. -/
theorem getKubeConfigWithExecCredential_aborts_in_order_witness :
    GetKubeConfigWithExecCredential targetConcrete execEnvMissingCluster =
      (.err .missingClusterInfo, [CallTag.execCredentialPost]) := by
  have h := getKubeConfigWithExecCredential_aborts_in_order targetConcrete
    execEnvMissingCluster credsEmptyClusterConcrete rfl
  exact h.1 rfl rfl

/-- Claim C3: every kubeconfig successfully assembled by
`GetKubeConfigWithExecCredential` has a single user entry of exec-hook
shape — no raw bearer token, command `metaplay`, argument list exactly
`environment get-kubernetes-execcredential --stack-api <stackApiBaseURL>
--environment <humanId>`, apiVersion pinned to the client-go v1beta1
contract and interactiveMode `Never`. -/
theorem kubeconfig_user_is_exec_hook (target : TargetEnvironment) (env : ExecEnv)
    (kc : KubeConfig) (trace : List CallTag)
    (h : GetKubeConfigWithExecCredential target env = (.ok kc, trace)) :
    ∃ u : KubeConfigUser, kc.Users = [u] ∧ u.User.Token = "" ∧
      u.User.Exec =
        { Command := "metaplay"
          Args := ["environment", "get-kubernetes-execcredential",
                   "--stack-api", target.StackApiBaseURL,
                   "--environment", target.HumanId]
          ApiVersion := "client.authentication.k8s.io/v1beta1"
          InteractiveMode := "Never" } := by
  obtain ⟨c, e, u, rfl⟩ := getKubeConfig_ok_shape target env kc trace h
  exact ⟨_, rfl, rfl, rfl⟩

/-- Witness for C3: the user entry of a concrete successful assembly. -/
theorem kubeconfig_user_is_exec_hook_witness :
    ∃ u : KubeConfigUser, kubeConfigOkConcrete.Users = [u] ∧ u.User.Token = "" ∧
      u.User.Exec =
        { Command := "metaplay"
          Args := ["environment", "get-kubernetes-execcredential",
                   "--stack-api", targetConcrete.StackApiBaseURL,
                   "--environment", targetConcrete.HumanId]
          ApiVersion := "client.authentication.k8s.io/v1beta1"
          InteractiveMode := "Never" } :=
  kubeconfig_user_is_exec_hook targetConcrete execEnvOk kubeConfigOkConcrete
    [CallTag.execCredentialPost, CallTag.getDetails, CallTag.fetchUserInfo] rfl

/-- Claim C4: every kubeconfig successfully assembled by
`GetKubeConfigWithExecCredential` has exactly one cluster, one context
and one user; `current-context` equals the single context's name (the
deployment human id); the context references the cluster by name (the
server URL) and the user by name (the email); and serializing the
document and reading it back yields the same four identifiers. -/
theorem kubeconfig_single_entries_roundtrip (target : TargetEnvironment)
    (env : ExecEnv) (kc : KubeConfig) (trace : List CallTag)
    (h : GetKubeConfigWithExecCredential target env = (.ok kc, trace)) :
    ∃ (cluster : KubeConfigCluster) (ctx : KubeConfigContext)
      (user : KubeConfigUser),
      kc.Clusters = [cluster] ∧ kc.Contexts = [ctx] ∧ kc.Users = [user] ∧
      kc.CurrentContext = ctx.Name ∧ ctx.Name = target.HumanId ∧
      ctx.Context.Cluster = cluster.Name ∧ ctx.Context.User = user.Name ∧
      yamlFourIdentifiers (yamlOfKubeConfig kc) =
        some (kc.CurrentContext, ctx.Name, cluster.Name, user.Name) := by
  obtain ⟨c, e, u, rfl⟩ := getKubeConfig_ok_shape target env kc trace h
  exact ⟨_, _, _, rfl, rfl, rfl, rfl, rfl, rfl, rfl, rfl⟩

/-- Witness for C4: the four identifiers of a concrete successful
assembly survive the serialize-and-read-back round trip. -/
theorem kubeconfig_single_entries_roundtrip_witness :
    ∃ (cluster : KubeConfigCluster) (ctx : KubeConfigContext)
      (user : KubeConfigUser),
      kubeConfigOkConcrete.Clusters = [cluster] ∧
      kubeConfigOkConcrete.Contexts = [ctx] ∧
      kubeConfigOkConcrete.Users = [user] ∧
      kubeConfigOkConcrete.CurrentContext = ctx.Name ∧
      ctx.Name = targetConcrete.HumanId ∧
      ctx.Context.Cluster = cluster.Name ∧ ctx.Context.User = user.Name ∧
      yamlFourIdentifiers (yamlOfKubeConfig kubeConfigOkConcrete) =
        some (kubeConfigOkConcrete.CurrentContext, ctx.Name, cluster.Name,
          user.Name) :=
  kubeconfig_single_entries_roundtrip targetConcrete execEnvOk kubeConfigOkConcrete
    [CallTag.execCredentialPost, CallTag.getDetails, CallTag.fetchUserInfo] rfl

/-- Claim C9 counterexample: a PUT through `envapi.httpRequest` reaches the
unimplemented-method panic branch even on a healthy 200 response,
refuting the claim that the panic branch is unreachable for each of GET,
POST and PUT on both executors. -/
theorem httpRequest_put_panics :
    envapi.httpRequest (.json fun _ => (.error "unused" : Except String Nat))
      "PUT" "/v0/deployments/tiny-squids" (.response 200 "{}") = .panicked :=
  rfl

end MetaplayCli
